import Mathlib

/-!
# LOOT start-up coordinator (`src/gui/main.cpp`)

A shallow embedding of `processCommandLineArguments`, `GetCefSettings` and
`main` / `wWinMain`, followed by the properties checked against them.

The program talks to three outside parties: the embedded browser engine (CEF),
the operating system (named mutexes and windows on Windows, Xlib elsewhere) and
the host application object (`loot::LootApp`).  Every call made to one of them
is recorded as an `Action`; what the call answers is read from an `Env`.  A run
of `main` is then the list of actions it performed together with the value it
returned (`none` when a call did not come back and the run was cut short).
-/

namespace Loot

/-! ## Build platform -/

/-- The two builds selected by `#ifdef _WIN32`. -/
inductive Platform where
  | windows
  | other
  deriving DecidableEq, Repr

/-! ## CEF command line -/

/-- Modelled from the spec: the `CefCommandLine` class of the embedded engine (CEF),
which `processCommandLineArguments` queries and whose declaration is not in the
repository.  The spec describes it as an argument list holding `--name=value`
switches and positional (non-switch) arguments.  The object keeps one value per
switch name and the positional arguments in order. -/
structure CefCommandLine where
  switches : List (String × String)
  arguments : List String
  deriving DecidableEq, Repr

namespace CefCommandLine

/-- Modelled from the spec: `CefCommandLine::CreateCommandLine()`, missing like the
class; it gives a fresh object with nothing recorded. -/
def CreateCommandLine : CefCommandLine := ⟨[], []⟩

/-- Modelled from the spec: `HasSwitch(name)`, missing like the class; whether a
switch of that name was recorded. -/
def HasSwitch (c : CefCommandLine) (name : String) : Bool :=
  c.switches.any (fun kv => kv.1 == name)

/-- Modelled from the spec: `GetSwitchValue(name)`, missing like the class; the
value recorded for the switch, the empty string when there is none. -/
def GetSwitchValue (c : CefCommandLine) (name : String) : String :=
  match c.switches.find? (fun kv => kv.1 == name) with
  | some kv => kv.2
  | none => ""

/-- Modelled from the spec: `HasArguments()`, missing like the class; whether a
positional argument was recorded. -/
def HasArguments (c : CefCommandLine) : Bool := !c.arguments.isEmpty

/-- Modelled from the spec: `GetArguments(arguments)`, missing like the class; the
positional arguments in the order given. -/
def GetArguments (c : CefCommandLine) : List String := c.arguments

/-- Modelled from the spec: recording a switch, a step of the missing parser.  A
later occurrence of a name replaces the earlier one. -/
def AppendSwitchWithValue (c : CefCommandLine) (name value : String) : CefCommandLine :=
  { c with switches := (name, value) :: c.switches.filter (fun kv => !(kv.1 == name)) }

/-- Modelled from the spec: recording a positional argument, a step of the missing
parser; it goes behind the ones already there. -/
def AppendArgument (c : CefCommandLine) (argument : String) : CefCommandLine :=
  { c with arguments := c.arguments ++ [argument] }

end CefCommandLine

/-- One word of the command line, classified. -/
inductive Token where
  | switch (name value : String)
  | positional (text : String)
  deriving DecidableEq, Repr

/-- Modelled from the spec: the lexical form of a command-line word, which the
missing parser of CEF decides.  The spec writes switches as `--name=value`: a
word that starts with `--` is a switch, its name runs up to the first `=` and
its value is what follows that `=` (empty when there is no `=`).  Every other
word is a positional argument. -/
def classify (word : String) : Token :=
  match word.data with
  | '-' :: '-' :: rest =>
      Token.switch (String.mk (rest.takeWhile (fun c => c != '=')))
        (String.mk ((rest.dropWhile (fun c => c != '=')).drop 1))
  | _ => Token.positional word

/-- Modelled from the spec: one step of the missing parser, which records a
classified word. -/
def CefCommandLine.append (c : CefCommandLine) : Token → CefCommandLine
  | Token.switch name value => c.AppendSwitchWithValue name value
  | Token.positional text => c.AppendArgument text

/-- Modelled from the spec: `CefCommandLine::InitFromString`, the parser of CEF,
missing like the class.  The command line is given as its words after the
program name, already split; they are classified and recorded from left to
right. -/
def CefCommandLine.InitFromString (c : CefCommandLine) (words : List String) : CefCommandLine :=
  words.foldl (fun acc w => acc.append (classify w)) c

/-! ## Actions and answers -/

/-- A Windows `HANDLE` / `HWND` that is not `NULL`; `NULL` is `none` of an `Option`. -/
abbrev Handle := Nat

/-- `CefMainArgs`: built from `hInstance` on Windows, from `argc`/`argv` elsewhere. -/
inductive CefMainArgs where
  | ofInstance
  | ofArgv (argv : List String)
  deriving DecidableEq, Repr

/-- `CefSettings`, the three fields `GetCefSettings` fills in.  Paths are kept as
their components. -/
structure CefSettings where
  command_line_args_disabled : Bool
  log_file : List String
  locales_dir_path : List String
  deriving DecidableEq, Repr

/-- The calls `main` makes to the engine, the OS and the host application. -/
inductive Action where
  | CefEnableHighDPISupport
  | CefExecuteProcess (main_args : CefMainArgs)
  | OpenMutex (name : String)
  | FindWindow (title : String)
  | SetForegroundWindow (hWnd : Option Handle)
  | CreateMutex (name : String)
  | LogInfo (message : String)
  | Initialise (defaultGame lootDataPath url : String)
  | XSetErrorHandler
  | XSetIOErrorHandler
  | CefInitialize (main_args : CefMainArgs) (settings : CefSettings)
  | CefRunMessageLoop
  | CefShutdown
  | ReleaseMutex (hMutex : Handle)
  deriving DecidableEq, Repr

/-- How a call into C++ code outside this file ends: it returns a value, or it
does not return to the caller (an exception leaves it, or the process is ended
inside it). -/
inductive Outcome (α : Type) where
  | returned (value : α)
  | raised
  deriving DecidableEq, Repr

/-- `loot::LootPaths`, as far as `GetCefSettings` reads it. -/
structure LootPaths where
  getLootDataPath : List String
  getL10nPath : List String
  deriving DecidableEq, Repr

/-- What the outside world answers during one run of `main`. -/
structure Env where
  /-- The words on the process command line after the program name. -/
  commandLine : List String
  paths : LootPaths
  CefExecuteProcess : Outcome Int
  OpenMutex : Option Handle
  FindWindow : Option Handle
  CreateMutex : Option Handle
  Initialise : Outcome Unit
  CefInitialize : Outcome Bool
  CefRunMessageLoop : Outcome Unit
  CefShutdown : Outcome Unit

/-- One run of `main`: the calls made, in order, and the exit code returned
(`none` when a call did not return and the run stopped there). -/
structure Run where
  trace : List Action
  result : Option Int
  deriving DecidableEq, Repr

/-- Put actions that already happened in front of a run. -/
def Run.after (done : List Action) (r : Run) : Run :=
  { r with trace := done ++ r.trace }

/-! ## `GetCefSettings` (lines 45–58) -/

/-- The engine settings: command line arguments enabled, the log file
`CEFDebugLog.txt` in LOOT's data path, the locale packs in LOOT's l10n path. -/
def GetCefSettings (paths : LootPaths) : CefSettings :=
  { command_line_args_disabled := false
    log_file := paths.getLootDataPath ++ ["CEFDebugLog.txt"]
    locales_dir_path := paths.getL10nPath }

/-! ## `processCommandLineArguments` (lines 79–106) -/

/-- The command line object queried by `processCommandLineArguments` (lines 84–87):
freshly created, and filled from the process command line, `GetCommandLineW()`,
only under `_WIN32`. -/
def recordedCommandLine (p : Platform) (commandLine : List String) : CefCommandLine :=
  match p with
  | Platform.windows => CefCommandLine.CreateCommandLine.InitFromString commandLine
  | Platform.other => CefCommandLine.CreateCommandLine

/-- The calls made by `processCommandLineArguments` in a process whose command
line is `commandLine`: the log line, if any, and then the single call
`app->Initialise(defaultGame, lootDataPath, url)`. -/
def processCommandLineArguments (p : Platform) (commandLine : List String) : List Action :=
  let command_line := recordedCommandLine p commandLine
  let defaultGame :=
    if command_line.HasSwitch "game" then command_line.GetSwitchValue "game" else ""
  let lootDataPath :=
    if command_line.HasSwitch "loot-data-path" then command_line.GetSwitchValue "loot-data-path"
    else ""
  if command_line.HasArguments then
    -- `arguments[0]`, in bounds because `HasArguments()` held
    let url := command_line.GetArguments.headD ""
    [Action.LogInfo ("Loading homepage using URL " ++ url),
     Action.Initialise defaultGame lootDataPath url]
  else
    [Action.Initialise defaultGame lootDataPath "http://loot/ui/index.html"]

/-- The argument triples of the `Initialise` calls in a list of actions. -/
def initialiseCalls : List Action → List (String × String × String)
  | [] => []
  | Action.Initialise g d u :: rest => (g, d, u) :: initialiseCalls rest
  | _ :: rest => initialiseCalls rest

/-! ## The argument translator as the specification words it

These functions read the specification's contract for the translator off a
list of words, without any command line object; they are what
`processCommandLineArguments` is compared with. -/

/-- Spec side: the positional (non-switch) arguments of a command line, in order. -/
def positionalArguments (words : List String) : List String :=
  words.filterMap (fun w =>
    match classify w with
    | Token.positional text => some text
    | Token.switch _ _ => none)

/-- Spec side: the value the command line gives to the switch `name`, `none` when
the switch does not occur.  When it occurs more than once the last one counts. -/
def switchValue (name : String) : List String → Option String
  | [] => none
  | w :: ws =>
    match switchValue name ws with
    | some value => some value
    | none =>
      match classify w with
      | Token.switch n value => if n == name then some value else none
      | Token.positional _ => none

/-- Spec side: the `StartupConfig` triple (workload, data path, start target). -/
def startupConfig (words : List String) : String × String × String :=
  ((switchValue "game" words).getD "",
   (switchValue "loot-data-path" words).getD "",
   (positionalArguments words).headD "http://loot/ui/index.html")

/-! ## `main` / `wWinMain` (lines 108–190) -/

/-- `CefMainArgs main_args(...)` (lines 119–128). -/
def mainArgs (p : Platform) (env : Env) : CefMainArgs :=
  match p with
  | Platform.windows => CefMainArgs.ofInstance
  | Platform.other => CefMainArgs.ofArgv env.commandLine

/-- Lines 117–134: the set-up calls up to and including `CefExecuteProcess`. -/
def bootstrapActions (p : Platform) (env : Env) : List Action :=
  match p with
  | Platform.windows =>
      [Action.CefEnableHighDPISupport, Action.CefExecuteProcess (mainArgs p env)]
  | Platform.other => [Action.CefExecuteProcess (mainArgs p env)]

/-- Lines 167–172: the Xlib handlers, installed on the non-Windows build only. -/
def installErrorHandlers : Platform → List Action
  | Platform.windows => []
  | Platform.other => [Action.XSetErrorHandler, Action.XSetIOErrorHandler]

/-- Lines 183–187: `if (hMutex != NULL) ReleaseMutex(hMutex);`, Windows only. -/
def releaseLock : Platform → Option Handle → List Action
  | Platform.windows, some hMutex => [Action.ReleaseMutex hMutex]
  | _, _ => []

/-- Lines 174–189: initialise the engine, run the message loop, shut down,
release the mutex, return 0.  Each statement runs only if the one before it
returned. -/
def runEngine (p : Platform) (env : Env) (hMutex : Option Handle) : Run :=
  let init := Action.CefInitialize (mainArgs p env) (GetCefSettings env.paths)
  match env.CefInitialize with
  | Outcome.raised => ⟨[init], none⟩
  | Outcome.returned _ =>
    match env.CefRunMessageLoop with
    | Outcome.raised => ⟨[init, Action.CefRunMessageLoop], none⟩
    | Outcome.returned _ =>
      match env.CefShutdown with
      | Outcome.raised => ⟨[init, Action.CefRunMessageLoop, Action.CefShutdown], none⟩
      | Outcome.returned _ =>
        ⟨[init, Action.CefRunMessageLoop, Action.CefShutdown] ++ releaseLock p hMutex, some 0⟩

/-- Lines 156–189: everything after the single-instance check. -/
def startup (p : Platform) (env : Env) (hMutex : Option Handle) : Run :=
  let translate := processCommandLineArguments p env.commandLine
  match env.Initialise with
  | Outcome.raised => ⟨translate, none⟩
  | Outcome.returned _ =>
    (runEngine p env hMutex).after (translate ++ installErrorHandlers p)

/-- Lines 145–149: `OpenMutex` gave a handle, so another instance runs; focus its
window and return 0. -/
def focusExisting (env : Env) : Run :=
  ⟨[Action.FindWindow "LOOT", Action.SetForegroundWindow env.FindWindow], some 0⟩

/-- Lines 150–153 and on: `OpenMutex` gave `NULL`; create the mutex, whose handle
is `created`, and go on with start-up. -/
def createAndStart (env : Env) (created : Option Handle) : Run :=
  (startup Platform.windows env created).after [Action.CreateMutex "LOOT.Shell.Instance"]

/-- Lines 140–154 and on, once the answer `opened` of `OpenMutex` is known. -/
def afterOpen (env : Env) (opened created : Option Handle) : Run :=
  match opened with
  | some _ => focusExisting env
  | none => createAndStart env created

/-- Lines 140–189: the part of `main` behind the early return. -/
def primary (p : Platform) (env : Env) : Run :=
  match p with
  | Platform.windows =>
      (afterOpen env env.OpenMutex env.CreateMutex).after
        [Action.OpenMutex "LOOT.Shell.Instance"]
  | Platform.other => startup p env none

/-- The whole of `main` (`wWinMain` on Windows). -/
def main (p : Platform) (env : Env) : Run :=
  match env.CefExecuteProcess with
  | Outcome.raised => ⟨bootstrapActions p env, none⟩
  | Outcome.returned exit_code =>
    if exit_code ≥ 0 then
      ⟨bootstrapActions p env, some exit_code⟩
    else
      (primary p env).after (bootstrapActions p env)


/-! ## Two launches and one lock

`main` is run by two processes at once.  Both are past the early return of
line 137.  The calls that touch the named mutex are the points at which the
processes can be interleaved: `OpenMutex` (line 144) and `CreateMutex`
(line 152).  A process that got a handle from `CreateMutex` keeps it while it
runs, which is for as long as its message loop lasts, and gives it up when the
process ends, however it ends.  The mutex exists while some process has a
handle to it. -/

/-- Where one launch stands. -/
inductive Launch where
  /-- At line 140, before the single-instance check. -/
  | atGuard
  /-- At line 152: `OpenMutex` has answered `NULL`, `CreateMutex` is next. -/
  | atCreate
  /-- At line 156, past the check, with `hMutex` as `CreateMutex` left it; the
  process is alive and start-up, message loop and shutdown are still to come. -/
  | running (hMutex : Option Handle)
  /-- At the end: the process is gone; the part of `main` behind line 138 has run
  as recorded. -/
  | done (run : Run)
  deriving DecidableEq, Repr

/-- Modelled from the spec: the named-lock primitive of the OS (`OpenMutex`,
`CreateMutex`), which is not in the repository.  `handles` counts the handles
that processes hold to the mutex named `LOOT.Shell.Instance`; the mutex exists
while the count is positive.  Opening succeeds exactly when the mutex exists; a
creation that hands back a handle adds one; a process that ends gives its
handle back.  One step of one launch against that count gives the launch's next
position and the new count; what the launch does is taken from `main`
(`focusExisting`, `createAndStart`, `startup`).

A launch that finds the mutex opens it, focuses the window and ends within the
same step, so the handle it opened is not counted. -/
def Launch.step (p : Platform) (env : Env) (handles : Nat) : Launch → Launch × Nat
  | Launch.atGuard =>
    match p with
    | Platform.other => (Launch.running none, handles)
    | Platform.windows =>
      if 0 < handles then
        (Launch.done ((focusExisting env).after [Action.OpenMutex "LOOT.Shell.Instance"]),
          handles)
      else
        (Launch.atCreate, handles)
  | Launch.atCreate =>
    (Launch.running env.CreateMutex, if env.CreateMutex.isSome then handles + 1 else handles)
  | Launch.running hMutex =>
    match p with
    | Platform.other => (Launch.done (startup Platform.other env none), handles)
    | Platform.windows =>
      (Launch.done ((createAndStart env hMutex).after [Action.OpenMutex "LOOT.Shell.Instance"]),
        if hMutex.isSome then handles - 1 else handles)
  | Launch.done run => (Launch.done run, handles)

/-- One launch on its own, from the check to the end, against a given count. -/
def Launch.alone (p : Platform) (env : Env) (handles : Nat) : Launch :=
  let a := Launch.atGuard.step p env handles
  let b := a.1.step p env a.2
  (b.1.step p env b.2).1

/-- The two launches and the count of handles to the lock they share. -/
structure Race where
  handles : Nat
  first : Launch
  second : Launch
  deriving DecidableEq, Repr

/-- Both launches at the check, no lock present. -/
def Race.start : Race := ⟨0, Launch.atGuard, Launch.atGuard⟩

/-- Let one launch take its next step: the second one when `who` is `true`. -/
def Race.step (p : Platform) (env₁ env₂ : Env) (s : Race) (who : Bool) : Race :=
  if who then
    let r := s.second.step p env₂ s.handles
    { s with handles := r.2, second := r.1 }
  else
    let r := s.first.step p env₁ s.handles
    { s with handles := r.2, first := r.1 }

/-- Run a schedule, the list of who moves next, from the start. -/
def Race.run (p : Platform) (env₁ env₂ : Env) (schedule : List Bool) : Race :=
  schedule.foldl (Race.step p env₁ env₂) Race.start

/-- Whether a trace holds a call of `CefInitialize`. -/
def callsCefInitialize (trace : List Action) : Bool :=
  trace.any (fun a => match a with | Action.CefInitialize _ _ => true | _ => false)

/-- Whether a trace holds a call of `SetForegroundWindow`. -/
def callsSetForegroundWindow (trace : List Action) : Bool :=
  trace.any (fun a => match a with | Action.SetForegroundWindow _ => true | _ => false)

/-- The launch has come to its end. -/
def Launch.finished : Launch → Bool
  | Launch.done _ => true
  | _ => false

/-- The launch has come to its end and called `CefInitialize` on the way. -/
def Launch.initialised : Launch → Bool
  | Launch.done run => callsCefInitialize run.trace
  | _ => false

/-- The launch has returned 0 after asking for the window to be focused, without
calling `CefInitialize`. -/
def Launch.yielded : Launch → Bool
  | Launch.done run =>
      decide (run.result = some 0) && callsSetForegroundWindow run.trace
        && !callsCefInitialize run.trace
  | _ => false

/-- Exactly one of the two launches initialised the engine and the other one
yielded. -/
def Race.exclusive (s : Race) : Bool :=
  (s.first.initialised && s.second.yielded) || (s.second.initialised && s.first.yielded)

/-- An environment in which every call returns and succeeds, on the primary path. -/
def calmEnv : Env :=
  { commandLine := []
    paths := ⟨["data"], ["l10n"]⟩
    CefExecuteProcess := Outcome.returned (-1)
    OpenMutex := none
    FindWindow := some 2
    CreateMutex := some 1
    Initialise := Outcome.returned ()
    CefInitialize := Outcome.returned true
    CefRunMessageLoop := Outcome.returned ()
    CefShutdown := Outcome.returned () }


/-- An environment in which the engine reports a finished worker, status 0. -/
def workerEnv : Env := { calmEnv with CefExecuteProcess := Outcome.returned 0 }

/-- An environment in which another instance already holds the lock. -/
def secondEnv : Env := { calmEnv with OpenMutex := some 5 }

/-- An environment in which the message loop does not return. -/
def brokenLoopEnv : Env := { calmEnv with CefRunMessageLoop := Outcome.raised }

/-! ## Auxiliary facts -/

theorem initialiseCalls_append (xs ys : List Action) :
    initialiseCalls (xs ++ ys) = initialiseCalls xs ++ initialiseCalls ys := by
  induction xs with
  | nil => rfl
  | cons a xs ih => cases a <;> simp [initialiseCalls, ih]

theorem callsCefInitialize_append (xs ys : List Action) :
    callsCefInitialize (xs ++ ys) = (callsCefInitialize xs || callsCefInitialize ys) := by
  simp [callsCefInitialize]

/-- The calls of `processCommandLineArguments` are a log line at most and one
`Initialise`. -/
theorem processCommandLineArguments_shape (p : Platform) (words : List String) :
    ∃ g d u, processCommandLineArguments p words = [Action.Initialise g d u] ∨
      processCommandLineArguments p words =
        [Action.LogInfo ("Loading homepage using URL " ++ u), Action.Initialise g d u] := by
  unfold processCommandLineArguments
  by_cases h : (recordedCommandLine p words).HasArguments = true
  · exact ⟨_, _, _, Or.inr (by simp only [h, if_true]; rfl)⟩
  · have h' : (recordedCommandLine p words).HasArguments = false := by simpa using h
    exact ⟨_, _, "http://loot/ui/index.html", Or.inl (by simp only [h']; rfl)⟩

theorem callsCefInitialize_processCommandLineArguments (p : Platform) (words : List String) :
    callsCefInitialize (processCommandLineArguments p words) = false := by
  obtain ⟨g, d, u, h | h⟩ := processCommandLineArguments_shape p words <;>
    simp [h, callsCefInitialize]

/-! ## Facts about the command line -/

theorem classify_game (value : String) :
    classify ("--game=" ++ value) = Token.switch "game" value := by
  have h : ("--game=" ++ value).data =
      '-' :: '-' :: 'g' :: 'a' :: 'm' :: 'e' :: '=' :: value.data := by
    simp [String.data_append]
  simp only [classify, h]
  simp [List.takeWhile, List.dropWhile]

theorem classify_loot_data_path (value : String) :
    classify ("--loot-data-path=" ++ value) = Token.switch "loot-data-path" value := by
  have h : ("--loot-data-path=" ++ value).data = "--loot-data-path=".data ++ value.data := by
    simp [String.data_append]
  simp only [classify, h]
  simp [List.takeWhile, List.dropWhile]

theorem InitFromString_cons (c : CefCommandLine) (w : String) (ws : List String) :
    c.InitFromString (w :: ws) = (c.append (classify w)).InitFromString ws := rfl

theorem HasSwitch_eq_find (c : CefCommandLine) (name : String) :
    c.HasSwitch name = (c.switches.find? (fun kv => kv.1 == name)).isSome := by
  unfold CefCommandLine.HasSwitch
  induction c.switches with
  | nil => rfl
  | cons kv l ih =>
    by_cases h : kv.1 == name <;> simp [List.find?, h, ih]

theorem find_filter_other (l : List (String × String)) (n name : String) (h : (n == name) = false) :
    (l.filter (fun kv => !(kv.1 == n))).find? (fun kv => kv.1 == name) =
      l.find? (fun kv => kv.1 == name) := by
  induction l with
  | nil => rfl
  | cons kv l ih =>
    by_cases h1 : kv.1 == n
    · have h2 : (kv.1 == name) = false := by
        have e1 : kv.1 = n := by simpa using h1
        simpa [e1] using h
      simp [List.filter, h1, List.find?, h2, ih]
    · by_cases h2 : kv.1 == name <;> simp [List.filter, h1, List.find?, h2, ih]

/-- What the parser has recorded for a switch name is the spec-side value of that
switch on the words parsed, or else what was recorded before. -/
theorem find_InitFromString (name : String) (ws : List String) (c : CefCommandLine) :
    (c.InitFromString ws).switches.find? (fun kv => kv.1 == name) =
      match switchValue name ws with
      | some value => some (name, value)
      | none => c.switches.find? (fun kv => kv.1 == name) := by
  induction ws generalizing c with
  | nil => rfl
  | cons w ws ih =>
    rw [InitFromString_cons, ih]
    cases hsv : switchValue name ws with
    | some value => simp [switchValue, hsv]
    | none =>
      cases hc : classify w with
      | positional text =>
        simp [switchValue, hsv, hc, CefCommandLine.append, CefCommandLine.AppendArgument]
      | switch n value =>
        by_cases hn : n == name
        · have e : n = name := by simpa using hn
          simp [switchValue, hsv, hc, CefCommandLine.append,
            CefCommandLine.AppendSwitchWithValue, List.find?, e]
        · have hn' : (n == name) = false := by simpa using hn
          simp only [switchValue, hsv, hc, CefCommandLine.append,
            CefCommandLine.AppendSwitchWithValue, List.find?, hn']
          simpa using find_filter_other c.switches n name hn'

/-- The positional arguments the parser has recorded are the ones recorded
before followed by the spec-side positional arguments of the words parsed. -/
theorem arguments_InitFromString (ws : List String) (c : CefCommandLine) :
    (c.InitFromString ws).arguments = c.arguments ++ positionalArguments ws := by
  induction ws generalizing c with
  | nil => simp [CefCommandLine.InitFromString, positionalArguments]
  | cons w ws ih =>
    rw [InitFromString_cons, ih]
    cases hc : classify w with
    | positional text =>
      simp [positionalArguments, List.filterMap_cons, hc, CefCommandLine.append,
        CefCommandLine.AppendArgument]
    | switch n value =>
      simp [positionalArguments, List.filterMap_cons, hc, CefCommandLine.append,
        CefCommandLine.AppendSwitchWithValue]

/-- On the Windows build `processCommandLineArguments` passes the spec-side
triple of the command line to `Initialise`. -/
theorem processCommandLineArguments_windows (words : List String) :
    initialiseCalls (processCommandLineArguments Platform.windows words) =
      [startupConfig words] ∧
    processCommandLineArguments Platform.windows words =
      (match positionalArguments words with
        | [] => []
        | url :: _ => [Action.LogInfo ("Loading homepage using URL " ++ url)]) ++
      [Action.Initialise (startupConfig words).1 (startupConfig words).2.1
        (startupConfig words).2.2] := by
  have hfind := fun name =>
    find_InitFromString name words CefCommandLine.CreateCommandLine
  have hargs := arguments_InitFromString words CefCommandLine.CreateCommandLine
  have key : processCommandLineArguments Platform.windows words =
      (match positionalArguments words with
        | [] => []
        | url :: _ => [Action.LogInfo ("Loading homepage using URL " ++ url)]) ++
      [Action.Initialise (startupConfig words).1 (startupConfig words).2.1
        (startupConfig words).2.2] := by
    simp only [processCommandLineArguments, recordedCommandLine, HasSwitch_eq_find,
      CefCommandLine.GetSwitchValue, CefCommandLine.HasArguments, CefCommandLine.GetArguments,
      hfind, hargs, startupConfig]
    cases switchValue "game" words <;> cases switchValue "loot-data-path" words <;>
      cases positionalArguments words <;>
      simp [CefCommandLine.CreateCommandLine]
  refine ⟨?_, key⟩
  rw [key]
  cases positionalArguments words <;> simp [initialiseCalls]

theorem switchValue_insert (name n value word : String) (pre post : List String)
    (hw : classify word = Token.switch n value) (hn : n ≠ name) :
    switchValue name (pre ++ word :: post) = switchValue name (pre ++ post) := by
  induction pre with
  | nil =>
    have hn' : (n == name) = false := by simpa using hn
    cases h : switchValue name post <;> simp [switchValue, h, hw, hn']
  | cons w pre ih => simp [switchValue, ih]

theorem positionalArguments_insert (n value word : String) (pre post : List String)
    (hw : classify word = Token.switch n value) :
    positionalArguments (pre ++ word :: post) = positionalArguments (pre ++ post) := by
  simp [positionalArguments, List.filterMap_append, List.filterMap_cons, hw]

/-! ## Properties of `processCommandLineArguments` -/

/-- C5: the start target passed to `Initialise` should be the first positional
argument.  For the arguments `--loot-data-path=/tmp/x myhome.html` the first
positional argument is `myhome.html`; the Windows build passes it on as the
start target, the non-Windows build passes the default address (and no data
path). -/
theorem processCommandLineArguments_other_loses_target :
    positionalArguments ["--loot-data-path=/tmp/x", "myhome.html"] = ["myhome.html"] ∧
    initialiseCalls
        (processCommandLineArguments Platform.windows ["--loot-data-path=/tmp/x", "myhome.html"]) =
      [("", "/tmp/x", "myhome.html")] ∧
    initialiseCalls
        (processCommandLineArguments Platform.other ["--loot-data-path=/tmp/x", "myhome.html"]) =
      [("", "", "http://loot/ui/index.html")] := by
  decide

/-- C6: the game passed to `Initialise` should be the value of the `--game`
switch when it is present.  For the arguments `--game=Skyrim` the Windows build
passes `Skyrim`, the non-Windows build passes the empty string although the
switch is present. -/
theorem processCommandLineArguments_other_loses_game :
    switchValue "game" ["--game=Skyrim"] = some "Skyrim" ∧
    initialiseCalls (processCommandLineArguments Platform.windows ["--game=Skyrim"]) =
      [("Skyrim", "", "http://loot/ui/index.html")] ∧
    initialiseCalls (processCommandLineArguments Platform.other ["--game=Skyrim"]) =
      [("", "", "http://loot/ui/index.html")] := by
  decide

/-- C7: `--game=A --loot-data-path=B` and `--loot-data-path=B --game=A` make
`processCommandLineArguments` perform the same calls, on either build; on the
Windows build the one call is `Initialise(A, B, "http://loot/ui/index.html")`
for both. -/
theorem processCommandLineArguments_switch_order (p : Platform) (A B : String) :
    processCommandLineArguments p ["--game=" ++ A, "--loot-data-path=" ++ B] =
      processCommandLineArguments p ["--loot-data-path=" ++ B, "--game=" ++ A] ∧
    initialiseCalls
        (processCommandLineArguments Platform.windows ["--game=" ++ A, "--loot-data-path=" ++ B]) =
      [(A, B, "http://loot/ui/index.html")] ∧
    initialiseCalls
        (processCommandLineArguments Platform.windows ["--loot-data-path=" ++ B, "--game=" ++ A]) =
      [(A, B, "http://loot/ui/index.html")] := by
  have h1 : startupConfig ["--game=" ++ A, "--loot-data-path=" ++ B] =
      (A, B, "http://loot/ui/index.html") := by
    simp [startupConfig, switchValue, positionalArguments, classify_game,
      classify_loot_data_path]
  have h2 : startupConfig ["--loot-data-path=" ++ B, "--game=" ++ A] =
      (A, B, "http://loot/ui/index.html") := by
    simp [startupConfig, switchValue, positionalArguments, classify_game,
      classify_loot_data_path]
  have p1 : positionalArguments ["--game=" ++ A, "--loot-data-path=" ++ B] = [] := by
    simp [positionalArguments, classify_game, classify_loot_data_path]
  have p2 : positionalArguments ["--loot-data-path=" ++ B, "--game=" ++ A] = [] := by
    simp [positionalArguments, classify_game, classify_loot_data_path]
  refine ⟨?_, ?_, ?_⟩
  · cases p
    · rw [(processCommandLineArguments_windows _).2, (processCommandLineArguments_windows _).2,
        h1, h2, p1, p2]
    · rfl
  · rw [(processCommandLineArguments_windows _).1, h1]
  · rw [(processCommandLineArguments_windows _).1, h2]

/-- C8: putting a switch whose name is neither `game` nor `loot-data-path`
anywhere into a command line does not change the calls
`processCommandLineArguments` performs, on either build. -/
theorem processCommandLineArguments_ignores_other_switch (p : Platform)
    (pre post : List String) (word name value : String)
    (hw : classify word = Token.switch name value)
    (hgame : name ≠ "game") (hpath : name ≠ "loot-data-path") :
    processCommandLineArguments p (pre ++ word :: post) =
      processCommandLineArguments p (pre ++ post) ∧
    initialiseCalls (processCommandLineArguments p (pre ++ word :: post)) =
      initialiseCalls (processCommandLineArguments p (pre ++ post)) := by
  have key : processCommandLineArguments p (pre ++ word :: post) =
      processCommandLineArguments p (pre ++ post) := by
    cases p
    · rw [(processCommandLineArguments_windows _).2, (processCommandLineArguments_windows _).2]
      simp only [startupConfig, switchValue_insert _ _ _ _ pre post hw hgame,
        switchValue_insert _ _ _ _ pre post hw hpath,
        positionalArguments_insert _ _ _ pre post hw]
    · rfl
  exact ⟨key, by rw [key]⟩

/-- An instance of C8: `--verbose=1` put between `--game=Skyrim` and
`myhome.html`, on the Windows build. -/
theorem processCommandLineArguments_ignores_other_switch_witness :
    classify "--verbose=1" = Token.switch "verbose" "1" ∧
    processCommandLineArguments Platform.windows ["--game=Skyrim", "--verbose=1", "myhome.html"] =
      processCommandLineArguments Platform.windows ["--game=Skyrim", "myhome.html"] ∧
    initialiseCalls
        (processCommandLineArguments Platform.windows
          ["--game=Skyrim", "--verbose=1", "myhome.html"]) =
      initialiseCalls
        (processCommandLineArguments Platform.windows ["--game=Skyrim", "myhome.html"]) :=
  ⟨by decide,
   processCommandLineArguments_ignores_other_switch Platform.windows ["--game=Skyrim"]
     ["myhome.html"] "--verbose=1" "verbose" "1" (by decide) (by decide) (by decide)⟩

/-! ## Facts about two launches -/

theorem Race.foldl_done (p : Platform) (env₁ env₂ : Env) (handles : Nat) (r₁ r₂ : Run)
    (schedule : List Bool) :
    schedule.foldl (Race.step p env₁ env₂) ⟨handles, Launch.done r₁, Launch.done r₂⟩ =
      ⟨handles, Launch.done r₁, Launch.done r₂⟩ := by
  induction schedule with
  | nil => rfl
  | cons who rest ih => cases who <;> simpa [Race.step, Launch.step] using ih

/-- With the second launch at its end, the first launch, past the check, runs to
its end as soon as it moves. -/
theorem Race.foldl_first_finishes (env₁ env₂ : Env) (handles : Nat) (hMutex : Option Handle)
    (r₂ : Run) (schedule : List Bool) (h : false ∈ schedule) :
    schedule.foldl (Race.step Platform.windows env₁ env₂)
        ⟨handles, Launch.running hMutex, Launch.done r₂⟩ =
      ⟨if hMutex.isSome then handles - 1 else handles,
        Launch.done ((createAndStart env₁ hMutex).after
          [Action.OpenMutex "LOOT.Shell.Instance"]),
        Launch.done r₂⟩ := by
  induction schedule with
  | nil => simp at h
  | cons who rest ih =>
    cases who
    · simpa [Race.step, Launch.step] using
        Race.foldl_done Platform.windows env₁ env₂
          (if hMutex.isSome then handles - 1 else handles)
          ((createAndStart env₁ hMutex).after [Action.OpenMutex "LOOT.Shell.Instance"]) r₂ rest
    · have h' : false ∈ rest := by simpa using h
      simpa [Race.step, Launch.step] using ih h'

/-- A launch past the check whose `Initialise` returns goes on to call
`CefInitialize`. -/
theorem createAndStart_initialises (env : Env) (hMutex : Option Handle)
    (hI : env.Initialise = Outcome.returned ()) :
    callsCefInitialize
      ((createAndStart env hMutex).after [Action.OpenMutex "LOOT.Shell.Instance"]).trace
        = true := by
  cases hA : env.CefInitialize <;> cases hB : env.CefRunMessageLoop <;>
    cases hC : env.CefShutdown <;>
    simp [createAndStart, startup, hI, Run.after, runEngine, hA, hB, hC,
      callsCefInitialize]

theorem focusExisting_yields (env : Env) :
    (Launch.done
      ((focusExisting env).after [Action.OpenMutex "LOOT.Shell.Instance"])).yielded = true := by
  simp [Launch.yielded, focusExisting, Run.after, callsSetForegroundWindow, callsCefInitialize]

/-- A launch on its own in the two-launch model does what `primary` does when
`OpenMutex` answers according to the count of handles. -/
theorem Launch.alone_eq_primary (p : Platform) (env : Env) (handles : Nat)
    (hopen : env.OpenMutex.isSome = decide (0 < handles)) :
    Launch.alone p env handles = Launch.done (primary p env) := by
  cases p
  · by_cases hl : 0 < handles
    · have hs : env.OpenMutex.isSome = true := by simpa [hl] using hopen
      obtain ⟨h, ho⟩ := Option.isSome_iff_exists.mp hs
      simp [Launch.alone, Launch.step, primary, afterOpen, ho, hl]
    · have ho : env.OpenMutex = none := by simpa [hl] using hopen
      simp [Launch.alone, Launch.step, primary, afterOpen, ho, hl]
  · simp [Launch.alone, Launch.step, primary]

/-- The check does its work when it is not interleaved.  On the Windows build,
starting with no lock, let the first launch call `OpenMutex` and `CreateMutex`,
the latter giving a handle, and let the second launch make its check next, while
the first is still running.  Then the second launch returns 0 after
`SetForegroundWindow` without calling `CefInitialize`, and the first launch,
if its `Initialise` returns, calls `CefInitialize` once it moves on. -/
theorem Race.exclusive_of_checks_in_turn (env₁ env₂ : Env) (rest : List Bool)
    (hcreate : env₁.CreateMutex.isSome = true)
    (hinit : env₁.Initialise = Outcome.returned ())
    (hmove : false ∈ rest) :
    (Race.run Platform.windows env₁ env₂ (false :: false :: true :: rest)).first.initialised
      = true ∧
    (Race.run Platform.windows env₁ env₂ (false :: false :: true :: rest)).second.yielded
      = true ∧
    (Race.run Platform.windows env₁ env₂ (false :: false :: true :: rest)).exclusive = true := by
  have hrun : Race.run Platform.windows env₁ env₂ (false :: false :: true :: rest) =
      ⟨0, Launch.done ((createAndStart env₁ env₁.CreateMutex).after
          [Action.OpenMutex "LOOT.Shell.Instance"]),
        Launch.done ((focusExisting env₂).after [Action.OpenMutex "LOOT.Shell.Instance"])⟩ := by
    simp only [Race.run, List.foldl_cons]
    have h3 : Race.step Platform.windows env₁ env₂
        (Race.step Platform.windows env₁ env₂
          (Race.step Platform.windows env₁ env₂ Race.start false) false) true =
        ⟨1, Launch.running env₁.CreateMutex,
          Launch.done ((focusExisting env₂).after [Action.OpenMutex "LOOT.Shell.Instance"])⟩ := by
      simp [Race.step, Race.start, Launch.step, hcreate]
    rw [h3, Race.foldl_first_finishes env₁ env₂ 1 env₁.CreateMutex _ rest hmove]
    simp [hcreate]
  have hi := createAndStart_initialises env₁ env₁.CreateMutex hinit
  have hy := focusExisting_yields env₂
  simp only [hrun, Race.exclusive, Launch.initialised, hi, hy, Bool.true_and, Bool.true_or,
    and_self]

/-! ## Properties of `main` -/

/-- C1: when `CefExecuteProcess` returns a status `s ≥ 0`, `main` returns `s` and
the only calls it has made are the ones up to `CefExecuteProcess` (no mutex call,
no `Initialise`, no Xlib handler, no engine call); when it returns `s < 0`,
`main` goes on: the next call is `OpenMutex` on Windows and the calls of
`processCommandLineArguments` elsewhere. -/
theorem main_bootstrap_status (p : Platform) (env : Env) (s : Int)
    (hs : env.CefExecuteProcess = Outcome.returned s) :
    (0 ≤ s →
      (main p env).result = some s ∧
      (main p env).trace =
        (match p with
          | Platform.windows =>
              [Action.CefEnableHighDPISupport, Action.CefExecuteProcess CefMainArgs.ofInstance]
          | Platform.other => [Action.CefExecuteProcess (CefMainArgs.ofArgv env.commandLine)])) ∧
    (s < 0 →
      ∃ rest, (main p env).trace =
        bootstrapActions p env ++
          (match p with
            | Platform.windows => Action.OpenMutex "LOOT.Shell.Instance" :: rest
            | Platform.other => processCommandLineArguments Platform.other env.commandLine ++ rest)) := by
  constructor
  · intro h
    have h' : s ≥ 0 := h
    cases p <;> simp [main, hs, h', bootstrapActions, mainArgs]
  · intro h
    have h' : ¬ s ≥ 0 := not_le.mpr h
    cases p
    · refine ⟨(afterOpen env env.OpenMutex env.CreateMutex).trace, ?_⟩
      simp [main, hs, h', primary, Run.after]
    · cases hI : env.Initialise with
      | raised =>
        refine ⟨[], ?_⟩
        simp [main, hs, h', primary, Run.after, startup, hI]
      | returned u =>
        refine ⟨installErrorHandlers Platform.other ++
          (runEngine Platform.other env none).trace, ?_⟩
        simp [main, hs, h', primary, Run.after, startup, hI]

/-- Instances of C1: a worker whose status is 0 on the non-Windows build, and a
primary launch, status -1, on the Windows build. -/
theorem main_bootstrap_status_witness :
    ((main Platform.other workerEnv).result = some 0 ∧
      (main Platform.other workerEnv).trace =
        [Action.CefExecuteProcess (CefMainArgs.ofArgv workerEnv.commandLine)]) ∧
    (∃ rest, (main Platform.windows calmEnv).trace =
        bootstrapActions Platform.windows calmEnv ++
          Action.OpenMutex "LOOT.Shell.Instance" :: rest) :=
  ⟨(main_bootstrap_status Platform.other workerEnv 0 rfl).1 (by decide),
   (main_bootstrap_status Platform.windows calmEnv (-1) rfl).2 (by decide)⟩

/-- C2: on the Windows build with a negative bootstrap status, if `OpenMutex`
gives a handle then `main` calls `FindWindow("LOOT")`, `SetForegroundWindow` on
the window found, and returns 0 with no other call behind `OpenMutex`; if
`OpenMutex` gives `NULL` then `main` calls `CreateMutex` with the same name and
goes on with the calls of `processCommandLineArguments`. -/
theorem main_single_instance_guard (env : Env) (s : Int)
    (hs : env.CefExecuteProcess = Outcome.returned s) (hneg : s < 0) :
    (∀ h, env.OpenMutex = some h →
      main Platform.windows env =
        ⟨[Action.CefEnableHighDPISupport, Action.CefExecuteProcess CefMainArgs.ofInstance,
          Action.OpenMutex "LOOT.Shell.Instance", Action.FindWindow "LOOT",
          Action.SetForegroundWindow env.FindWindow], some 0⟩) ∧
    (env.OpenMutex = none →
      ∃ rest, (main Platform.windows env).trace =
        [Action.CefEnableHighDPISupport, Action.CefExecuteProcess CefMainArgs.ofInstance,
          Action.OpenMutex "LOOT.Shell.Instance", Action.CreateMutex "LOOT.Shell.Instance"]
          ++ processCommandLineArguments Platform.windows env.commandLine ++ rest) := by
  have h' : ¬ s ≥ 0 := not_le.mpr hneg
  constructor
  · intro h ho
    simp [main, hs, h', primary, afterOpen, ho, focusExisting, Run.after, bootstrapActions,
      mainArgs]
  · intro ho
    cases hI : env.Initialise with
    | raised =>
      refine ⟨[], ?_⟩
      simp [main, hs, h', primary, afterOpen, ho, createAndStart, Run.after, startup, hI,
        bootstrapActions, mainArgs]
    | returned u =>
      refine ⟨installErrorHandlers Platform.windows ++
        (runEngine Platform.windows env env.CreateMutex).trace, ?_⟩
      simp [main, hs, h', primary, afterOpen, ho, createAndStart, Run.after, startup, hI,
        bootstrapActions, mainArgs]

/-- Instances of C2: a launch that finds the lock, and one that does not. -/
theorem main_single_instance_guard_witness :
    main Platform.windows secondEnv =
        ⟨[Action.CefEnableHighDPISupport, Action.CefExecuteProcess CefMainArgs.ofInstance,
          Action.OpenMutex "LOOT.Shell.Instance", Action.FindWindow "LOOT",
          Action.SetForegroundWindow (some 2)], some 0⟩ ∧
    (∃ rest, (main Platform.windows calmEnv).trace =
        [Action.CefEnableHighDPISupport, Action.CefExecuteProcess CefMainArgs.ofInstance,
          Action.OpenMutex "LOOT.Shell.Instance", Action.CreateMutex "LOOT.Shell.Instance"]
          ++ processCommandLineArguments Platform.windows calmEnv.commandLine ++ rest) :=
  ⟨(main_single_instance_guard secondEnv (-1) rfl (by decide)).1 5 rfl,
   (main_single_instance_guard calmEnv (-1) rfl (by decide)).2 rfl⟩

/-- C4: on the primary path with every call returning, the calls of `main` are, in
this order: the bootstrap calls, the guard calls (Windows), the calls of
`processCommandLineArguments` with exactly one `Initialise` among them, the two
Xlib handlers (non-Windows), `CefInitialize`, `CefRunMessageLoop`,
`CefShutdown`, `ReleaseMutex` if `CreateMutex` gave a handle (Windows); and
`main` returns 0. -/
theorem main_primary_sequence (env : Env) (s : Int) (b : Bool)
    (hs : env.CefExecuteProcess = Outcome.returned s) (hneg : s < 0)
    (hI : env.Initialise = Outcome.returned ())
    (hInit : env.CefInitialize = Outcome.returned b)
    (hRun : env.CefRunMessageLoop = Outcome.returned ())
    (hShut : env.CefShutdown = Outcome.returned ()) :
    main Platform.other env =
      ⟨[Action.CefExecuteProcess (CefMainArgs.ofArgv env.commandLine)]
        ++ processCommandLineArguments Platform.other env.commandLine
        ++ [Action.XSetErrorHandler, Action.XSetIOErrorHandler,
            Action.CefInitialize (CefMainArgs.ofArgv env.commandLine) (GetCefSettings env.paths),
            Action.CefRunMessageLoop, Action.CefShutdown], some 0⟩ ∧
    (env.OpenMutex = none →
      main Platform.windows env =
        ⟨[Action.CefEnableHighDPISupport, Action.CefExecuteProcess CefMainArgs.ofInstance,
          Action.OpenMutex "LOOT.Shell.Instance", Action.CreateMutex "LOOT.Shell.Instance"]
          ++ processCommandLineArguments Platform.windows env.commandLine
          ++ [Action.CefInitialize CefMainArgs.ofInstance (GetCefSettings env.paths),
              Action.CefRunMessageLoop, Action.CefShutdown]
          ++ (env.CreateMutex.map Action.ReleaseMutex).toList, some 0⟩) ∧
    (∀ p, (initialiseCalls (processCommandLineArguments p env.commandLine)).length = 1) := by
  have h' : ¬ s ≥ 0 := not_le.mpr hneg
  refine ⟨?_, ?_, ?_⟩
  · simp [main, hs, h', primary, startup, hI, runEngine, hInit, hRun, hShut, Run.after,
      bootstrapActions, mainArgs, installErrorHandlers, releaseLock]
  · intro ho
    cases hc : env.CreateMutex <;>
      simp [main, hs, h', primary, afterOpen, ho, createAndStart, startup, hI, runEngine,
        hInit, hRun, hShut, Run.after, bootstrapActions, mainArgs, installErrorHandlers,
        releaseLock, hc]
  · intro p
    obtain ⟨g, d, u, h | h⟩ := processCommandLineArguments_shape p env.commandLine <;>
      simp [h, initialiseCalls]

/-- An instance of C4: the calm environment, on both builds. -/
theorem main_primary_sequence_witness :
    main Platform.other calmEnv =
      ⟨[Action.CefExecuteProcess (CefMainArgs.ofArgv []),
        Action.Initialise "" "" "http://loot/ui/index.html",
        Action.XSetErrorHandler, Action.XSetIOErrorHandler,
        Action.CefInitialize (CefMainArgs.ofArgv []) (GetCefSettings calmEnv.paths),
        Action.CefRunMessageLoop, Action.CefShutdown], some 0⟩ ∧
    main Platform.windows calmEnv =
      ⟨[Action.CefEnableHighDPISupport, Action.CefExecuteProcess CefMainArgs.ofInstance,
        Action.OpenMutex "LOOT.Shell.Instance", Action.CreateMutex "LOOT.Shell.Instance",
        Action.Initialise "" "" "http://loot/ui/index.html",
        Action.CefInitialize CefMainArgs.ofInstance (GetCefSettings calmEnv.paths),
        Action.CefRunMessageLoop, Action.CefShutdown, Action.ReleaseMutex 1], some 0⟩ :=
  have h := main_primary_sequence calmEnv (-1) true rfl (by decide) rfl rfl rfl rfl
  ⟨h.1, h.2.1 rfl⟩

/-- C10: on the non-Windows build the calls of `processCommandLineArguments` are
the same for every command line, namely the single call
`Initialise("", "", "http://loot/ui/index.html")`, and no run of `main` passes
anything else to `Initialise`. -/
theorem processCommandLineArguments_other_constant (argv₁ argv₂ : List String) (env : Env) :
    processCommandLineArguments Platform.other argv₁ =
        [Action.Initialise "" "" "http://loot/ui/index.html"] ∧
    processCommandLineArguments Platform.other argv₂ =
        [Action.Initialise "" "" "http://loot/ui/index.html"] ∧
    (initialiseCalls (main Platform.other { env with commandLine := argv₁ }).trace =
      initialiseCalls (main Platform.other { env with commandLine := argv₂ }).trace) := by
  have hc : ∀ a, processCommandLineArguments Platform.other a =
      [Action.Initialise "" "" "http://loot/ui/index.html"] := fun a => rfl
  refine ⟨hc _, hc _, ?_⟩
  cases hE : env.CefExecuteProcess with
  | raised => simp [main, hE, bootstrapActions, initialiseCalls]
  | returned s =>
    by_cases hs : s ≥ 0
    · simp [main, hE, hs, bootstrapActions, initialiseCalls]
    · cases hI : env.Initialise with
      | raised =>
        simp [main, hE, hs, primary, startup, hI, Run.after, hc, initialiseCalls_append,
          bootstrapActions, initialiseCalls]
      | returned u =>
        cases hA : env.CefInitialize <;> cases hB : env.CefRunMessageLoop <;>
          cases hC : env.CefShutdown <;>
          simp [main, hE, hs, primary, startup, hI, Run.after, hc, initialiseCalls_append,
            bootstrapActions, initialiseCalls, runEngine, hA, hB, hC, installErrorHandlers,
            releaseLock]

/-- C3, as stated, fails: on the Windows build with a message loop that does not
return, `main` has created the mutex and called `CefInitialize`, and stops in
`CefRunMessageLoop`: neither `CefShutdown` nor `ReleaseMutex` is called. -/
theorem main_no_shutdown_when_loop_raises :
    main Platform.windows brokenLoopEnv =
      ⟨[Action.CefEnableHighDPISupport, Action.CefExecuteProcess CefMainArgs.ofInstance,
        Action.OpenMutex "LOOT.Shell.Instance", Action.CreateMutex "LOOT.Shell.Instance",
        Action.Initialise "" "" "http://loot/ui/index.html",
        Action.CefInitialize CefMainArgs.ofInstance (GetCefSettings brokenLoopEnv.paths),
        Action.CefRunMessageLoop], none⟩ ∧
    callsCefInitialize (main Platform.windows brokenLoopEnv).trace = true ∧
    brokenLoopEnv.CreateMutex = some 1 ∧
    Action.CefShutdown ∉ (main Platform.windows brokenLoopEnv).trace ∧
    Action.ReleaseMutex 1 ∉ (main Platform.windows brokenLoopEnv).trace := by
  decide

/-- C3, amended: in a run of `main` that calls `CefInitialize`, if
`CefInitialize`, `CefRunMessageLoop` and `CefShutdown` all return, then the run
ends with `CefInitialize`, `CefRunMessageLoop`, `CefShutdown` and, on Windows
when `CreateMutex` gave a handle, `ReleaseMutex` of that handle, and `main`
returns 0; if `CefRunMessageLoop` does not return, `main` returns nothing and
calls neither `CefShutdown` nor `ReleaseMutex`. -/
theorem main_shutdown_then_release (p : Platform) (env : Env)
    (hreach : callsCefInitialize (main p env).trace = true) :
    (∀ b, env.CefInitialize = Outcome.returned b →
      env.CefRunMessageLoop = Outcome.returned () →
      env.CefShutdown = Outcome.returned () →
      (main p env).result = some 0 ∧
      ∃ before, (main p env).trace =
        before ++ [Action.CefInitialize (mainArgs p env) (GetCefSettings env.paths),
          Action.CefRunMessageLoop, Action.CefShutdown]
          ++ (match p with
              | Platform.windows => (env.CreateMutex.map Action.ReleaseMutex).toList
              | Platform.other => [])) ∧
    (env.CefRunMessageLoop = Outcome.raised →
      (main p env).result = none ∧
      Action.CefShutdown ∉ (main p env).trace ∧
      ∀ h, Action.ReleaseMutex h ∉ (main p env).trace) := by
  cases hE : env.CefExecuteProcess with
  | raised =>
    exfalso
    cases p <;> simp [main, hE, bootstrapActions, callsCefInitialize] at hreach
  | returned s =>
    by_cases hs : s ≥ 0
    · exfalso
      cases p <;> simp [main, hE, hs, bootstrapActions, callsCefInitialize] at hreach
    · cases hI : env.Initialise with
      | raised =>
        exfalso
        obtain ⟨g, d, w, hw | hw⟩ := processCommandLineArguments_shape p env.commandLine
        all_goals
          cases p
          · cases ho : env.OpenMutex <;>
              simp [main, hE, hs, primary, afterOpen, ho, focusExisting, createAndStart, startup,
                hI, Run.after, bootstrapActions, callsCefInitialize, hw] at hreach
          · simp [main, hE, hs, primary, startup, hI, Run.after, bootstrapActions,
              callsCefInitialize, hw] at hreach
      | returned u =>
        obtain ⟨g, d, w, hw | hw⟩ := processCommandLineArguments_shape p env.commandLine
        all_goals
          cases p
          · cases ho : env.OpenMutex with
            | some h0 =>
              exfalso
              simp [main, hE, hs, primary, afterOpen, ho, focusExisting, Run.after,
                bootstrapActions, callsCefInitialize] at hreach
            | none =>
              constructor
              · intro b hA hB hC
                refine ⟨?_, ⟨bootstrapActions Platform.windows env ++
                  [Action.OpenMutex "LOOT.Shell.Instance",
                    Action.CreateMutex "LOOT.Shell.Instance"] ++
                  processCommandLineArguments Platform.windows env.commandLine, ?_⟩⟩
                · simp [main, hE, hs, primary, afterOpen, ho, createAndStart, startup, hI,
                    Run.after, runEngine, hA, hB, hC]
                · cases hc : env.CreateMutex <;>
                    simp [main, hE, hs, primary, afterOpen, ho, createAndStart, startup, hI,
                      Run.after, runEngine, hA, hB, hC, installErrorHandlers, releaseLock, hc]
              · intro hB
                cases hA : env.CefInitialize <;>
                  simp [main, hE, hs, primary, afterOpen, ho, createAndStart, startup, hI,
                    Run.after, runEngine, hA, hB, installErrorHandlers, bootstrapActions, hw]
          · constructor
            · intro b hA hB hC
              refine ⟨?_, ⟨bootstrapActions Platform.other env ++
                processCommandLineArguments Platform.other env.commandLine ++
                installErrorHandlers Platform.other, ?_⟩⟩
              · simp [main, hE, hs, primary, startup, hI, Run.after, runEngine, hA, hB, hC]
              · simp [main, hE, hs, primary, startup, hI, Run.after, runEngine, hA, hB, hC,
                  releaseLock]
            · intro hB
              cases hA : env.CefInitialize <;>
                simp [main, hE, hs, primary, startup, hI, Run.after, runEngine, hA, hB,
                  installErrorHandlers, bootstrapActions, hw]

/-- Instances of the amended C3: the calm environment on Windows, and the
environment whose message loop does not return. -/
theorem main_shutdown_then_release_witness :
    ((main Platform.windows calmEnv).result = some 0 ∧
      ∃ before, (main Platform.windows calmEnv).trace =
        before ++ [Action.CefInitialize CefMainArgs.ofInstance (GetCefSettings calmEnv.paths),
          Action.CefRunMessageLoop, Action.CefShutdown] ++ [Action.ReleaseMutex 1]) ∧
    ((main Platform.other brokenLoopEnv).result = none ∧
      Action.CefShutdown ∉ (main Platform.other brokenLoopEnv).trace ∧
      ∀ h, Action.ReleaseMutex h ∉ (main Platform.other brokenLoopEnv).trace) :=
  ⟨(main_shutdown_then_release Platform.windows calmEnv (by decide)).1 true rfl rfl rfl,
   (main_shutdown_then_release Platform.other brokenLoopEnv (by decide)).2 rfl⟩

/-! ## Two launches at once -/

/-- C9: of two near-simultaneous launches exactly one should initialise the engine
and the other should return 0 after asking for the window to be focused.  On
the Windows build with no lock at the start, let both launches call `OpenMutex`
before either calls `CreateMutex`, and then let both run.  Both `OpenMutex`
calls find nothing, both launches call `CreateMutex`, both call
`CefInitialize`, and neither calls `SetForegroundWindow`. -/
theorem race_both_initialise :
    Race.run Platform.windows calmEnv calmEnv [false, true, false, true] =
      ⟨2, Launch.running (some 1), Launch.running (some 1)⟩ ∧
    (Race.run Platform.windows calmEnv calmEnv
      [false, true, false, true, false, true]).first.initialised = true ∧
    (Race.run Platform.windows calmEnv calmEnv
      [false, true, false, true, false, true]).second.initialised = true ∧
    (Race.run Platform.windows calmEnv calmEnv
      [false, true, false, true, false, true]).first.yielded = false ∧
    (Race.run Platform.windows calmEnv calmEnv
      [false, true, false, true, false, true]).second.yielded = false ∧
    (Race.run Platform.windows calmEnv calmEnv
      [false, true, false, true, false, true]).exclusive = false := by
  decide

end Loot
